import Mathlib

/-!
Verification development for the gofile-webui server (`server.js`).

The definitions below are a shallow embedding of the `GoFileDownloader`
class of `server.js` (first revision, lines 1-334): the content resolver
`parseLinksRecursively`, the transfer routine `downloadContent`, the
fan-out `threadedDownloads`, the driver `download`, and the HTTP endpoint
`app.post` on `/download`.

Modelling conventions:
- Absolute filesystem paths are segment lists (`List String`); `path.join`
  of a directory with a single name is list append of one segment (the
  code only ever joins single path components).
- `process.chdir` / `mkdir` effects are tracked in an explicit state
  (`St`); `process.chdir` to a directory that does not exist throws
  ENOENT, modelled as a failing step.
- JavaScript exceptions are modelled by a `Bool` "threw" component
  threaded through each operation; mutations made before a throw persist
  (they are mutations of the long-lived class instance / real filesystem).
- Remote metadata responses are modelled by the `RTree` the traversal
  observes: each fetched node is either an ok envelope (file or folder
  payload), a non-ok envelope (`badStatus`), or a thrown request error
  (`thrownFetch`, covering network errors and malformed JSON).
- File-transfer network behaviour is a function from the entry's link to
  a `NetResult`.
- `log(...)` calls are recorded as `Ev` events in order of emission;
  per-chunk progress lines (the `data` handler) are not modelled since no
  claim depends on chunk boundaries.
-/

namespace GofileWebui

/-- An absolute filesystem path, as a list of segments from the root. -/
abbrev FPath := List String

/-- `this.rootDir = process.env.GF_DOWNLOADDIR || '/downloads'` with the
environment variable unset. -/
def rootDir : FPath := ["downloads"]

/-- The `maxWorkers = 5` default of the `GoFileDownloader` constructor
(never read anywhere in the class body). -/
def defaultMaxWorkers : Nat := 5

/-- One `log(...)` call site of the class, by message. -/
inductive Ev where
  /-- "Directory created: ..." / "Directory already exists: ..." -/
  | dirCreated (p : FPath)
  /-- "Failed to get a link as response from ...". -/
  | failStatus
  /-- "Password protected link. Please provide the password." -/
  | pwRequired
  /-- "Error parsing links: ..." (catch block of `parseLinksRecursively`). -/
  | parseErr
  /-- "... already exists, skipping." -/
  | skipExists (p : FPath)
  /-- "Couldn't find the file size from ...". -/
  | noSize
  /-- "Downloading ...: T of T Done!" -/
  | doneMsg
  /-- "Error downloading ...: ..." (catch block of `downloadContent`). -/
  | dlErr
  /-- "Content directory wasn't created, nothing done." -/
  | noContentDirMsg
  /-- "No content directory created for url ..., nothing done." -/
  | noContentDirUrlMsg
  /-- "Empty directory for url: ..., nothing done." -/
  | emptyDirMsg
  /-- "The url probably doesn't have an id in it: ...". -/
  | badUrlMsg
  /-- "Error during download: ..." (catch block of `download`). -/
  | runErr
deriving DecidableEq, Repr

/-- One value of `this.filesInfo`: destination directory (the
`process.cwd()` at discovery time), filename and remote link. -/
structure FileInfo where
  path : FPath
  filename : String
  link : String
deriving DecidableEq, Repr

mutual
/-- What one metadata fetch (`axios.get` in `parseLinksRecursively`)
returns for a node id. -/
inductive FetchRes where
  /-- Envelope with `status !== 'ok'`. -/
  | badStatus : FetchRes
  /-- The metadata request throws (network error / malformed JSON). -/
  | thrownFetch : FetchRes
  /-- Ok envelope, `data.type !== 'folder'`.  `pw` is the truth of
  `data.password && data.passwordStatus !== 'passwordOk'`. -/
  | okFile (pw : Bool) (name link : String) : FetchRes
  /-- Ok envelope, `data.type === 'folder'` with children listing. -/
  | okFolder (pw : Bool) (name : String) (children : Children) : FetchRes

/-- The `data.children` mapping of a folder, in object-key iteration
order.  A child of type ≠ `folder` carries its inline `name`/`link`; a
child of type `folder` carries the id it is re-fetched under and what
that fetch returns. -/
inductive Children where
  | nil : Children
  | file (name link : String) (rest : Children) : Children
  | folder (id : String) (f : FetchRes) (rest : Children) : Children
end

/-- The mutable state of one `GoFileDownloader` instance together with
the process-global and filesystem state it manipulates. -/
structure St where
  /-- `this.contentDir`. -/
  contentDir : Option FPath
  /-- `process.cwd()`. -/
  cwd : FPath
  /-- Directories existing on disk (prefix-closed). -/
  dirs : List FPath
  /-- `this.recursiveFilesIndex`. -/
  idx : Nat
  /-- `this.filesInfo`, in insertion order; the object keys are the
  decimal strings of the `Nat` keys, which JavaScript enumerates in
  ascending numeric order, so list order is key order. -/
  filesInfo : List (Nat × FileInfo)
  /-- Regular files on disk: full path ↦ byte size. -/
  files : List (FPath × Nat)
  /-- All `log` lines emitted so far. -/
  events : List Ev
  /-- Number of metadata GETs issued (`axios.get` in
  `parseLinksRecursively`). -/
  metaFetches : Nat
  /-- Number of file-transfer GETs issued (`axios` in
  `downloadContent`). -/
  engineRequests : Nat
deriving DecidableEq, Repr

/-- Append one log event. -/
def addEv (s : St) (e : Ev) : St := { s with events := s.events ++ [e] }

/-- Count one metadata request. -/
def incMeta (s : St) : St := { s with metaFetches := s.metaFetches + 1 }

/-- All prefixes of a path (including `[]`, the filesystem root). -/
def prefixesOf (p : FPath) : List FPath :=
  (List.range (p.length + 1)).map fun n => p.take n

/-- `mkdir -p`: add a path and all its ancestors to the directory set. -/
def mkdirp (dirs : List FPath) (p : FPath) : List FPath :=
  dirs ++ (prefixesOf p).filter fun q => ¬ dirs.contains q

/-- `createDir(dirname)` of the class: `mkdir(path.join(this.rootDir,
dirname), { recursive: true })` — note the join is with `rootDir`, not
with the current working directory. -/
def createDir (s : St) (dirname : String) : St :=
  let p := rootDir ++ [dirname]
  addEv { s with dirs := mkdirp s.dirs p } (.dirCreated p)

/-- `process.chdir(name)` with a relative single-segment `name`:
fails (ENOENT) when the target directory does not exist. -/
def chdirRel (s : St) (name : String) : Option St :=
  let target := s.cwd ++ [name]
  if s.dirs.contains target then some { s with cwd := target } else none

/-- `process.chdir(p)` with an absolute path. -/
def chdirAbs (s : St) (p : FPath) : Option St :=
  if s.dirs.contains p then some { s with cwd := p } else none

/-- `process.chdir('..')`. -/
def chdirUp (s : St) : St := { s with cwd := s.cwd.dropLast }

/-- The manifest-append branch: `this.recursiveFilesIndex++;
this.filesInfo[index] = { path: process.cwd(), filename, link }`. -/
def appendFile (s : St) (name link : String) : St :=
  { s with
    idx := s.idx + 1
    filesInfo := s.filesInfo ++ [(s.idx + 1,
      { path := s.cwd, filename := name, link := link })] }

mutual
/-- `parseLinksRecursively(contentId, password)`: `t` is what fetching
`cid` returns; result is the state after the call together with a flag
that is `true` when the call threw.  Every branch first counts the
metadata GET.  A non-ok envelope and an unsatisfied password gate log
and return normally; a thrown fetch, and any error escaping the folder
body (a failed `chdir`, or a throwing recursive call), is logged by the
catch block (`Error parsing links`) and rethrown. -/
def parseLinks (t : FetchRes) (cid : String) (s : St) : St × Bool :=
  match t with
  | .badStatus => (addEv (incMeta s) .failStatus, false)
  | .thrownFetch => (addEv (incMeta s) .parseErr, true)
  | .okFile pw name link =>
    let s := incMeta s
    if pw then (addEv s .pwRequired, false)
    else (appendFile s name link, false)
  | .okFolder pw name cs =>
    let s := incMeta s
    if pw then (addEv s .pwRequired, false)
    else
      -- `if (!this.contentDir ...)`: set `contentDir`, create the root
      -- directory under `rootDir`, and (only when `data.name !==
      -- contentId`) chdir into it.  The chdir target was just created
      -- by `createDir`, so that chdir always succeeds.
      let s :=
        match s.contentDir with
        | some _ => s
        | none =>
          let cd := rootDir ++ [cid]
          let s := createDir { s with contentDir := some cd } cid
          if name ≠ cid then { s with cwd := cd } else s
      -- `createDir(data.name)` joins `rootDir` with the name, while
      -- `process.chdir(data.name)` resolves relative to the current
      -- working directory; the chdir throws ENOENT when that relative
      -- target does not exist.
      let s := createDir s name
      match chdirRel s name with
      | none => (addEv s .parseErr, true)
      | some s =>
        match goChildren cs s with
        | (s, true) => (addEv s .parseErr, true)
        | (s, false) => (chdirUp s, false)
termination_by structural t

/-- The `for (const childId in data.children)` loop body: a file-typed
child is appended to the manifest inline; a folder-typed child is
resolved by a recursive call, whose exception (if any) escapes the loop
at once, skipping the remaining children. -/
def goChildren (cs : Children) (s : St) : St × Bool :=
  match cs with
  | .nil => (s, false)
  | .file name link rest => goChildren rest (appendFile s name link)
  | .folder id f rest =>
    match parseLinks f id s with
    | (s, true) => (s, true)
    | (s, false) => goChildren rest s
termination_by structural cs
end

/-- Behaviour of the file-transfer GET (`axios` in `downloadContent`)
for one link: either the request/stream promise rejects outright, or a
response arrives with an optional `content-length`, delivers some number
of bytes, and either finishes cleanly or errors mid-stream. -/
inductive NetResult where
  | throwErr : NetResult
  | ok (contentLength : Option Nat) (delivered : Nat) (streamErr : Bool) : NetResult

/-- How one `downloadContent` call ended. -/
inductive Outcome where
  /-- Returned at the skip check (destination already non-empty). -/
  | skipped
  /-- Returned at the missing-`content-length` check. -/
  | noLength
  /-- Stream finished with matching size; the partial file was renamed. -/
  | completed
  /-- Stream finished with a size mismatch; silent return, no rename. -/
  | mismatch
  /-- The promise rejected (request or stream error); rethrown. -/
  | threw
deriving DecidableEq, Repr

/-- A filesystem mutation performed by a transfer. -/
inductive FSOp where
  | setSize (p : FPath) (n : Nat) : FSOp
  | move (src dst : FPath) : FSOp
deriving DecidableEq, Repr

/-- Size of the regular file at `p`, when it exists. -/
def lookupSize (files : List (FPath × Nat)) (p : FPath) : Option Nat :=
  (files.find? fun e => e.1 == p).map (·.2)

/-- Create or truncate-to-`n` the file at `p` (used to record appends:
the caller passes the resulting total size). -/
def setSize (files : List (FPath × Nat)) (p : FPath) (n : Nat) :
    List (FPath × Nat) :=
  (files.filter fun e => !(e.1 == p)) ++ [(p, n)]

/-- Remove the file at `p`. -/
def removeFile (files : List (FPath × Nat)) (p : FPath) :
    List (FPath × Nat) :=
  files.filter fun e => !(e.1 == p)

/-- Apply one `FSOp`. -/
def applyOp (files : List (FPath × Nat)) : FSOp → List (FPath × Nat)
  | .setSize p n => setSize files p n
  | .move src dst =>
    match lookupSize files src with
    | some n => setSize (removeFile files src) dst n
    | none => files

/-- Apply a list of `FSOp`s in order. -/
def applyOps (files : List (FPath × Nat)) (ops : List FSOp) :
    List (FPath × Nat) :=
  ops.foldl applyOp files

/-- The destination path of a manifest entry:
`path.join(fileInfo.path, fileInfo.filename)`. -/
def destOf (fi : FileInfo) : FPath := fi.path ++ [fi.filename]

/-- The in-progress sibling: `` `${filepath}.part` ``. -/
def tmpOf (fi : FileInfo) : FPath := fi.path ++ [fi.filename ++ ".part"]

/-- Result of one `downloadContent` call: its outcome, the resume offset
(`partSize`), the `Range` header value sent (if any), whether the
transfer GET was issued at all, the filesystem mutations it performed,
and the log lines it emitted (per-chunk progress lines excluded). -/
structure DCResult where
  outcome : Outcome
  offset : Nat
  range : Option String
  requestIssued : Bool
  ops : List FSOp
  events : List Ev
deriving DecidableEq, Repr

/-- `downloadContent(fileInfo)`, evaluated against the disk contents
`files` and the network behaviour `net`.

Mirrors the source order: skip check on the final destination; resume
offset and `Range` header from the `.part` sibling; the GET; the
falsy-`content-length` check (`parseInt` yielding `NaN` or `0` — both
modelled by `total = 0` after `Option.getD 0`); appending the delivered
bytes to the partial file (`createWriteStream` with flag `'a'` creates
it when missing); and the completion check, which renames exactly when
the partial file size equals the declared total and does nothing at all
otherwise. -/
def downloadContent (net : String → NetResult)
    (files : List (FPath × Nat)) (fi : FileInfo) : DCResult :=
  let filepath := destOf fi
  if (lookupSize files filepath).getD 0 > 0 then
    { outcome := .skipped, offset := 0, range := none,
      requestIssued := false, ops := [], events := [.skipExists filepath] }
  else
    let tmp := tmpOf fi
    let tmpSz := lookupSize files tmp
    let partSize := tmpSz.getD 0
    let range := tmpSz.map fun n => "bytes=" ++ toString n ++ "-"
    match net fi.link with
    | .throwErr =>
      { outcome := .threw, offset := partSize, range := range,
        requestIssued := true, ops := [], events := [.dlErr] }
    | .ok cl d serr =>
      let total := cl.getD 0
      if total = 0 then
        { outcome := .noLength, offset := partSize, range := range,
          requestIssued := true, ops := [], events := [.noSize] }
      else
        let wrote := FSOp.setSize tmp (partSize + d)
        if serr then
          { outcome := .threw, offset := partSize, range := range,
            requestIssued := true, ops := [wrote], events := [.dlErr] }
        else if partSize + d = total then
          { outcome := .completed, offset := partSize, range := range,
            requestIssued := true, ops := [wrote, .move tmp filepath],
            events := [.doneMsg] }
        else
          { outcome := .mismatch, offset := partSize, range := range,
            requestIssued := true, ops := [wrote], events := [] }

/-- Result of `threadedDownloads`: the launched per-entry transfers (in
submission order), the final state, and whether the `await
Promise.all` rejected. -/
structure TDResult where
  st : St
  launched : List DCResult
  threw : Bool

/-- `threadedDownloads()`.  `Object.values(this.filesInfo)` enumerates
the integer-string keys in ascending numeric order, and `.map` creates
every promise synchronously: each entry's skip check, resume offset and
GET are computed against the disk state at launch, before any entry's
bytes land.  The writes of all launched transfers are then applied, and
`Promise.all` rejects exactly when some transfer threw — in which case
the final `process.chdir(this.rootDir)` is skipped and the rejection
propagates. -/
def threadedDownloads (net : String → NetResult) (s : St) : TDResult :=
  match s.contentDir with
  | none => { st := addEv s .noContentDirMsg, launched := [], threw := false }
  | some cd =>
    match chdirAbs s cd with
    | none => { st := s, launched := [], threw := true }
    | some s =>
      let launched := s.filesInfo.map fun e => downloadContent net s.files e.2
      let files := launched.foldl (fun fs r => applyOps fs r.ops) s.files
      let evs := launched.foldl (fun a r => a ++ r.events) ([] : List Ev)
      let reqs := (launched.filter fun r => r.requestIssued).length
      let anyThrew := launched.any fun r => r.outcome == .threw
      let s := { s with
        files := files
        events := s.events ++ evs
        engineRequests := s.engineRequests + reqs }
      if anyThrew then { st := s, launched := launched, threw := true }
      else { st := { s with cwd := rootDir }, launched := launched, threw := false }

/-- The number of transfers simultaneously in flight when
`threadedDownloads` reaches its `Promise.all` join: every launched,
non-skipped entry has issued its GET by then. -/
def activeAtJoin (td : TDResult) : Nat :=
  (td.launched.filter fun r => r.requestIssued).length

/-- `url.split('/')`, by character (the separator is the single
character `/`). -/
def splitSlashAux : List Char → List Char → List String
  | [], acc => [String.mk acc.reverse]
  | c :: rest, acc =>
    if c = '/' then String.mk acc.reverse :: splitSlashAux rest []
    else splitSlashAux rest (c :: acc)

/-- `url.split('/')`. -/
def splitSlash (u : String) : List String := splitSlashAux u.data []

/-- `urlParts[urlParts.length - 2]` with JavaScript indexing: a negative
index reads as `undefined`. -/
def urlSecondLast (parts : List String) : Option String :=
  if parts.length < 2 then none else parts.get? (parts.length - 2)

/-- `resetClassProperties()` (the `this.message` field is not
modelled). -/
def reset (s : St) : St := { s with contentDir := none, idx := 0, filesInfo := [] }

/-- Number of entries `fs.readdir(contentDir)` returns: immediate child
directories plus immediate child files. -/
def childCount (s : St) (cd : FPath) : Nat :=
  ((s.dirs.filter fun d =>
      d.length == cd.length + 1 && d.take cd.length == cd).length)
  + ((s.files.filter fun f =>
      f.1.length == cd.length + 1 && f.1.take cd.length == cd).length)

/-- `rmdir(this.contentDir)` (only reached when the directory is
empty). -/
def rmdirDir (s : St) (cd : FPath) : St :=
  { s with dirs := s.dirs.filter fun d => !(d == cd) }

/-- `download(url, password)` (first revision): the URL-shape guard, the
unconditional `createDir(contentId)` before the root fetch, the
recursive resolve, the no-content-dir and empty-dir early returns (both
of which reset the instance state), the transfer phase, and the catch
block that logs and rethrows without resetting.  `t` is what fetching
the content id extracted from the URL returns. -/
def download (net : String → NetResult) (t : FetchRes) (url : String)
    (s : St) : St × Bool :=
  let parts := splitSlash url
  if urlSecondLast parts ≠ some "d" then (addEv s .badUrlMsg, false)
  else
    let cid := parts.getLastD ""
    let s := createDir s cid
    match parseLinks t cid s with
    | (s, true) => (addEv s .runErr, true)
    | (s, false) =>
      match s.contentDir with
      | none => (reset (addEv s .noContentDirUrlMsg), false)
      | some cd =>
        if childCount s cd = 0 ∧ s.filesInfo = [] then
          (reset (rmdirDir (addEv s .emptyDirMsg) cd), false)
        else
          let td := threadedDownloads net s
          if td.threw then (addEv td.st .runErr, true)
          else (reset td.st, false)

/-- `url.trim()` (ASCII whitespace; the claims never exercise exotic
whitespace). -/
def jsTrim (u : String) : String :=
  let ws := fun c : Char => c = ' ' ∨ c = '\t' ∨ c = '\n' ∨ c = '\r'
  String.mk (((u.data.dropWhile ws).reverse.dropWhile ws).reverse)

/-- `url.startsWith('http')`, by character. -/
def startsWithHttp (u : String) : Bool :=
  match u.data with
  | 'h' :: 't' :: 't' :: 'p' :: _ => true
  | _ => false

/-- The `/download` endpoint: reject a URL that does not start with
`http` with status 400, otherwise answer 200 "Download started".  The
constructor's `init(url, password)` promise is never awaited — `await
new GoFileDownloader(url)` awaits a plain object — so the 200 response
does not depend on how the download run ends. -/
def postDownload (url : String) : Nat × String :=
  if startsWithHttp (jsTrim url) then (200, "Download started")
  else (400, "No valid URL provided")

/-- State of a fresh `GoFileDownloader` instance: all instance fields at
their constructor values, the process at working directory `cwd0`, and a
disk holding just `cwd0` and the download root. -/
def initSt (cwd0 : FPath) : St :=
  { contentDir := none, cwd := cwd0,
    dirs := mkdirp (mkdirp [] cwd0) rootDir,
    idx := 0, filesInfo := [], files := [], events := [],
    metaFetches := 0, engineRequests := 0 }

/-- The fetched root reports an unsatisfied password gate
(`data.password && data.passwordStatus !== 'passwordOk'`). -/
def pwGated : FetchRes → Prop
  | .okFile pw _ _ => pw = true
  | .okFolder pw _ _ => pw = true
  | _ => False

/-! ### Helper lemmas -/

theorem mem_mkdirp_self (dirs : List FPath) (p : FPath) : p ∈ mkdirp dirs p := by
  unfold mkdirp
  by_cases h : dirs.contains p
  · exact List.mem_append_left _ (by simpa using h)
  · refine List.mem_append_right _ (List.mem_filter.mpr ⟨?_, by simpa using h⟩)
    refine List.mem_map.mpr ⟨p.length, ?_, by simp⟩
    simp [prefixesOf, List.mem_range]

theorem lookupSize_setSize_self (files : List (FPath × Nat)) (p : FPath) (n : Nat) :
    lookupSize (setSize files p n) p = some n := by
  unfold lookupSize setSize
  have hnone : (files.filter fun e => !(e.1 == p)).find? (fun e => e.1 == p) = none := by
    rw [List.find?_eq_none]
    intro e he
    have := (List.mem_filter.mp he).2
    simpa using this
  rw [List.find?_append, hnone]
  simp [List.find?]

theorem dc_requestIssued (net : String → NetResult)
    (files : List (FPath × Nat)) (fi : FileInfo) :
    (downloadContent net files fi).requestIssued
      = ((lookupSize files (destOf fi)).getD 0 == 0) := by
  unfold downloadContent
  dsimp only
  split
  next h =>
    have : ((lookupSize files (destOf fi)).getD 0 == 0) = false := by
      simp only [beq_eq_false_iff_ne, ne_eq]
      omega
    rw [this]
  next h =>
    have h0 : ((lookupSize files (destOf fi)).getD 0 == 0) = true := by
      simp only [beq_iff_eq]
      omega
    rw [h0]
    cases net fi.link with
    | throwErr => rfl
    | ok cl d serr =>
      dsimp only
      split
      · rfl
      · split
        · rfl
        · split <;> rfl

theorem dc_range_eq (net : String → NetResult)
    (files : List (FPath × Nat)) (fi : FileInfo)
    (hdest : (lookupSize files (destOf fi)).getD 0 = 0) :
    (downloadContent net files fi).range
      = (lookupSize files (tmpOf fi)).map
          (fun n => "bytes=" ++ toString n ++ "-") := by
  unfold downloadContent
  dsimp only
  rw [if_neg (by omega)]
  cases net fi.link with
  | throwErr => rfl
  | ok cl d serr =>
    dsimp only
    split
    · rfl
    · split
      · rfl
      · split <;> rfl

theorem dc_offset_eq (net : String → NetResult)
    (files : List (FPath × Nat)) (fi : FileInfo)
    (hdest : (lookupSize files (destOf fi)).getD 0 = 0) :
    (downloadContent net files fi).offset
      = (lookupSize files (tmpOf fi)).getD 0 := by
  unfold downloadContent
  dsimp only
  rw [if_neg (by omega)]
  cases net fi.link with
  | throwErr => rfl
  | ok cl d serr =>
    dsimp only
    split
    · rfl
    · split
      · rfl
      · split <;> rfl

theorem dc_completed_size (net : String → NetResult)
    (files : List (FPath × Nat)) (fi : FileInfo) (T d : Nat) (e : Bool)
    (hdest : (lookupSize files (destOf fi)).getD 0 = 0)
    (hnet : net fi.link = .ok (some T) d e)
    (hout : (downloadContent net files fi).outcome = .completed) :
    lookupSize (applyOps files (downloadContent net files fi).ops)
      (destOf fi) = some T := by
  unfold downloadContent at hout ⊢
  dsimp only at hout ⊢
  rw [if_neg (by omega)] at hout ⊢
  rw [hnet] at hout ⊢
  simp only [Option.getD_some] at hout ⊢
  by_cases hT : T = 0
  · rw [if_pos hT] at hout
    simp at hout
  · rw [if_neg hT] at hout ⊢
    cases e with
    | true =>
      rw [if_pos rfl] at hout
      simp at hout
    | false =>
      rw [if_neg (by simp)] at hout ⊢
      by_cases he : (lookupSize files (tmpOf fi)).getD 0 + d = T
      · rw [if_pos he]
        simp only [applyOps, List.foldl, applyOp,
          lookupSize_setSize_self, he]
      · rw [if_neg he] at hout
        simp at hout

/-- C5: a transfer whose partial file already holds `N > 0` bytes sends
the header `Range: bytes=N-`; when no partial file exists the resume
offset is `0` and no `Range` header is sent; and a transfer that
completes (the partial file is renamed) leaves the final file at exactly
the declared total size, whatever the resume offset was. -/
theorem c5_resume_range_and_final_size (net : String → NetResult)
    (files : List (FPath × Nat)) (fi : FileInfo)
    (hdest : (lookupSize files (destOf fi)).getD 0 = 0) :
    (∀ N, lookupSize files (tmpOf fi) = some N → 0 < N →
        (downloadContent net files fi).range
          = some ("bytes=" ++ toString N ++ "-"))
    ∧ (lookupSize files (tmpOf fi) = none →
        (downloadContent net files fi).offset = 0
          ∧ (downloadContent net files fi).range = none)
    ∧ (∀ T d e, net fi.link = .ok (some T) d e →
        (downloadContent net files fi).outcome = .completed →
        lookupSize (applyOps files (downloadContent net files fi).ops)
          (destOf fi) = some T) := by
  refine ⟨?_, ?_, ?_⟩
  · intro N hN _
    rw [dc_range_eq net files fi hdest, hN]
    rfl
  · intro hN
    rw [dc_offset_eq net files fi hdest, dc_range_eq net files fi hdest, hN]
    exact ⟨rfl, rfl⟩
  · intro T d e hnet hout
    exact dc_completed_size net files fi T d e hdest hnet hout

def c5Fi : FileInfo := { path := ["downloads", "X"], filename := "f.bin", link := "L5" }

def c5Files : List (FPath × Nat) := [(["downloads", "X", "f.bin.part"], 500)]

def c5Net : String → NetResult := fun _ => .ok (some 1000) 500 false

/-- Witness for C5: with a 500-byte partial file and a declared total of
1000, the request carries `Range: bytes=500-` and the completed file is
1000 bytes. -/
theorem c5_resume_range_and_final_size_witness :
    (downloadContent c5Net c5Files c5Fi).range = some "bytes=500-"
    ∧ lookupSize (applyOps c5Files (downloadContent c5Net c5Files c5Fi).ops)
        (destOf c5Fi) = some 1000 := by
  have h := c5_resume_range_and_final_size c5Net c5Files c5Fi (by decide)
  constructor
  · rw [h.1 500 (by decide) (by decide)]
    decide
  · exact h.2.2 1000 500 false rfl (by decide)

/-- C6: an entry whose final destination file already exists with
non-zero size is skipped: the "already exists" line is logged, no
transfer GET is issued, and the disk is left unchanged. -/
theorem c6_existing_file_skipped (net : String → NetResult)
    (files : List (FPath × Nat)) (fi : FileInfo) (S : Nat)
    (h1 : lookupSize files (destOf fi) = some S) (h2 : 0 < S) :
    (downloadContent net files fi).outcome = .skipped
    ∧ (downloadContent net files fi).requestIssued = false
    ∧ (downloadContent net files fi).events = [.skipExists (destOf fi)]
    ∧ applyOps files (downloadContent net files fi).ops = files := by
  have hdc : downloadContent net files fi =
      { outcome := .skipped, offset := 0, range := none,
        requestIssued := false, ops := [], events := [.skipExists (destOf fi)] } := by
    unfold downloadContent
    dsimp only
    rw [if_pos]
    rw [h1]
    simpa using h2
  rw [hdc]
  exact ⟨rfl, rfl, rfl, rfl⟩

def c6Fi : FileInfo := { path := ["downloads", "X"], filename := "g.bin", link := "L6" }

def c6Files : List (FPath × Nat) := [(["downloads", "X", "g.bin"], 7)]

def c6Net : String → NetResult := fun _ => .throwErr

/-- Witness for C6 at a concrete 7-byte existing destination. -/
theorem c6_existing_file_skipped_witness :
    (downloadContent c6Net c6Files c6Fi).outcome = .skipped
    ∧ (downloadContent c6Net c6Files c6Fi).requestIssued = false
    ∧ applyOps c6Files (downloadContent c6Net c6Files c6Fi).ops = c6Files := by
  have h := c6_existing_file_skipped c6Net c6Files c6Fi 7 (by decide) (by decide)
  exact ⟨h.1, h.2.1, h.2.2.2⟩

def c7Fi : FileInfo := { path := ["downloads", "X"], filename := "h.bin", link := "L7" }

def c7Net : String → NetResult := fun _ => .ok (some 1000) 900 false

/-- Counterexample for C7: declared total 1000, stream delivers 900
bytes and closes.  The partial file is left at 900 bytes and the rename
does not occur — as the claim says — but the entry emits no log line at
all: the size discrepancy is not reported (the completion check has no
else branch). -/
theorem c7_counterexample :
    (downloadContent c7Net [] c7Fi).outcome = .mismatch
    ∧ (downloadContent c7Net [] c7Fi).events = []
    ∧ lookupSize (applyOps [] (downloadContent c7Net [] c7Fi).ops)
        (tmpOf c7Fi) = some 900
    ∧ lookupSize (applyOps [] (downloadContent c7Net [] c7Fi).ops)
        (destOf c7Fi) = none := by
  decide

/-- C7 (amended): on stream completion the partial file is renamed to
the destination iff its size equals the declared total; on a mismatch
the partial file is left in place at its current size and the entry
returns normally (it does not throw, so the run is not failed), but no
discrepancy report is emitted. -/
theorem c7_rename_iff_size_matches (net : String → NetResult)
    (files : List (FPath × Nat)) (fi : FileInfo) (T d : Nat)
    (hdest : (lookupSize files (destOf fi)).getD 0 = 0)
    (hnet : net fi.link = .ok (some T) d false)
    (hT : 0 < T) :
    (FSOp.move (tmpOf fi) (destOf fi) ∈ (downloadContent net files fi).ops
      ↔ (lookupSize files (tmpOf fi)).getD 0 + d = T)
    ∧ ((lookupSize files (tmpOf fi)).getD 0 + d ≠ T →
        (downloadContent net files fi).outcome = .mismatch
        ∧ (downloadContent net files fi).events = []
        ∧ lookupSize (applyOps files (downloadContent net files fi).ops)
            (tmpOf fi) = some ((lookupSize files (tmpOf fi)).getD 0 + d)) := by
  have hdc : downloadContent net files fi =
      (if (lookupSize files (tmpOf fi)).getD 0 + d = T then
        { outcome := .completed, offset := (lookupSize files (tmpOf fi)).getD 0,
          range := (lookupSize files (tmpOf fi)).map
            (fun n => "bytes=" ++ toString n ++ "-"),
          requestIssued := true,
          ops := [.setSize (tmpOf fi) ((lookupSize files (tmpOf fi)).getD 0 + d),
                  .move (tmpOf fi) (destOf fi)],
          events := [.doneMsg] }
      else
        { outcome := .mismatch, offset := (lookupSize files (tmpOf fi)).getD 0,
          range := (lookupSize files (tmpOf fi)).map
            (fun n => "bytes=" ++ toString n ++ "-"),
          requestIssued := true,
          ops := [.setSize (tmpOf fi) ((lookupSize files (tmpOf fi)).getD 0 + d)],
          events := [] }) := by
    unfold downloadContent
    dsimp only
    rw [if_neg (by omega), hnet]
    simp only [Option.getD_some]
    rw [if_neg (by omega)]
    rw [if_neg (by simp)]
  constructor
  · constructor
    · intro hm
      by_contra he
      rw [hdc, if_neg he] at hm
      simp at hm
    · intro he
      rw [hdc, if_pos he]
      simp
  · intro he
    rw [hdc, if_neg he]
    refine ⟨rfl, rfl, ?_⟩
    simp only [applyOps, List.foldl, applyOp]
    exact lookupSize_setSize_self _ _ _

/-- Witness for the amended C7: partial file at 900 of 1000 — no
rename, a silent return, partial file preserved at 900. -/
theorem c7_rename_iff_size_matches_witness :
    ¬ FSOp.move (tmpOf c7Fi) (destOf c7Fi) ∈ (downloadContent c7Net [] c7Fi).ops
    ∧ (downloadContent c7Net [] c7Fi).outcome = .mismatch
    ∧ (downloadContent c7Net [] c7Fi).events = [] := by
  have h := c7_rename_iff_size_matches c7Net [] c7Fi 1000 900 (by decide) rfl
    (by decide)
  have hne : (lookupSize ([] : List (FPath × Nat)) (tmpOf c7Fi)).getD 0 + 900 ≠ 1000 := by
    decide
  refine ⟨fun hm => hne (h.1.mp hm), (h.2 hne).1, (h.2 hne).2.1⟩

def c3Fi (k : Nat) : FileInfo :=
  { path := ["downloads", "X"], filename := "f" ++ toString k,
    link := "L" ++ toString k }

def c3St : St :=
  { contentDir := some ["downloads", "X"], cwd := ["downloads"],
    dirs := [[], ["downloads"], ["downloads", "X"]],
    idx := 6,
    filesInfo := [(1, c3Fi 1), (2, c3Fi 2), (3, c3Fi 3),
                  (4, c3Fi 4), (5, c3Fi 5), (6, c3Fi 6)],
    files := [], events := [], metaFetches := 1, engineRequests := 0 }

def c3Net : String → NetResult := fun _ => .ok (some 10) 10 false

/-- Counterexample for C3: a six-entry manifest of fresh files has six
transfers active simultaneously at the `Promise.all` join — the claimed
bound of `concurrencyLimit = 5` is exceeded, because the `maxWorkers`
constructor parameter is never consulted. -/
theorem c3_counterexample :
    activeAtJoin (threadedDownloads c3Net c3St) = 6
    ∧ ¬ activeAtJoin (threadedDownloads c3Net c3St) ≤ defaultMaxWorkers := by
  decide

/-- C3 (amended): the engine submits entries in manifest sequence-key
order, but all at once: every entry is launched, and the number of
transfers simultaneously active at the join equals the number of
non-skipped entries, with no bound. -/
theorem c3_unbounded_submission (net : String → NetResult) (s : St)
    (cd : FPath) (h1 : s.contentDir = some cd) (h2 : cd ∈ s.dirs) :
    (threadedDownloads net s).launched
      = s.filesInfo.map (fun e => downloadContent net s.files e.2)
    ∧ activeAtJoin (threadedDownloads net s)
      = (s.filesInfo.filter
          (fun e => (lookupSize s.files (destOf e.2)).getD 0 == 0)).length := by
  have hch : s.dirs.contains cd = true := by simpa using h2
  have htd : (threadedDownloads net s).launched
      = s.filesInfo.map (fun e => downloadContent net s.files e.2) := by
    unfold threadedDownloads
    rw [h1]
    dsimp only
    unfold chdirAbs
    rw [if_pos hch]
    dsimp only
    split <;> rfl
  refine ⟨htd, ?_⟩
  unfold activeAtJoin
  rw [htd, ← List.countP_eq_length_filter, List.countP_map,
    ← List.countP_eq_length_filter]
  refine List.countP_congr ?_
  intro e _
  simp only [Function.comp]
  rw [dc_requestIssued]

/-- Witness for the amended C3, at the six-entry manifest: all six
entries are in flight together. -/
theorem c3_unbounded_submission_witness :
    activeAtJoin (threadedDownloads c3Net c3St) = 6 := by
  have h := c3_unbounded_submission c3Net c3St ["downloads", "X"] rfl (by decide)
  rw [h.2]
  decide

def c4aFi : FileInfo :=
  { path := ["downloads", "Y"], filename := "a.bin", link := "LA" }

def c4bFi : FileInfo :=
  { path := ["downloads", "Y"], filename := "b.bin", link := "LB" }

def c4aSt : St :=
  { contentDir := some ["downloads", "Y"], cwd := ["downloads"],
    dirs := [[], ["downloads"], ["downloads", "Y"]], idx := 1,
    filesInfo := [(1, c4aFi)], files := [], events := [],
    metaFetches := 1, engineRequests := 0 }

def c4aNet : String → NetResult := fun _ => .ok none 0 false

def c4bSt : St :=
  { contentDir := some ["downloads", "Y"], cwd := ["downloads"],
    dirs := [[], ["downloads"], ["downloads", "Y"]], idx := 2,
    filesInfo := [(1, c4aFi), (2, c4bFi)], files := [], events := [],
    metaFetches := 1, engineRequests := 0 }

def c4bNet : String → NetResult :=
  fun l => if l = "LA" then .throwErr else .ok (some 5) 5 false

/-- Counterexample for C4, in two parts.  First: a run whose only entry
ends at the missing-content-length check succeeds as a whole although
that entry is neither skipped nor completed — refuting "the run succeeds
exactly when all entries are skipped or completed".  Second: when one
entry's transfer throws, the `Promise.all` join rejects and the run as a
whole fails — refuting "a failure of one entry is recorded per-entry
without ... failing the other entries" read as run-level isolation —
even though the sibling entry still ran to completion. -/
theorem c4_counterexample :
    ((threadedDownloads c4aNet c4aSt).threw = false
      ∧ (threadedDownloads c4aNet c4aSt).launched.map (fun r => r.outcome)
          = [.noLength])
    ∧ ((threadedDownloads c4bNet c4bSt).threw = true
      ∧ (threadedDownloads c4bNet c4bSt).launched.map (fun r => r.outcome)
          = [.threw, .completed]) := by
  decide

/-- C4 (amended): every manifest entry is launched (the per-entry
transfers all run, even when a sibling fails), and the run as a whole
fails exactly when some entry's transfer throws — entries ending in
missing-content-length or size-mismatch do not fail the run. -/
theorem c4_all_attempted_fails_iff_throw (net : String → NetResult)
    (s : St) (cd : FPath) (h1 : s.contentDir = some cd) (h2 : cd ∈ s.dirs) :
    (threadedDownloads net s).launched.length = s.filesInfo.length
    ∧ ((threadedDownloads net s).threw = true ↔
        ∃ r ∈ (threadedDownloads net s).launched, r.outcome = .threw) := by
  have hch : s.dirs.contains cd = true := by simpa using h2
  have htd : (threadedDownloads net s).launched
      = s.filesInfo.map (fun e => downloadContent net s.files e.2) := by
    unfold threadedDownloads
    rw [h1]
    dsimp only
    unfold chdirAbs
    rw [if_pos hch]
    dsimp only
    split <;> rfl
  have hthrew : (threadedDownloads net s).threw
      = (threadedDownloads net s).launched.any (fun r => r.outcome == .threw) := by
    unfold threadedDownloads
    rw [h1]
    dsimp only
    unfold chdirAbs
    rw [if_pos hch]
    dsimp only
    split
    next h =>
      dsimp only
      exact h.symm
    next h =>
      dsimp only
      symm
      simpa using h
  constructor
  · rw [htd, List.length_map]
  · rw [hthrew, List.any_eq_true]
    constructor
    · rintro ⟨r, hr, hb⟩
      exact ⟨r, hr, by simpa using hb⟩
    · rintro ⟨r, hr, hb⟩
      exact ⟨r, hr, by simpa using hb⟩

/-- Witness for the amended C4: in the two-entry run with one throwing
entry, both entries were launched and the run failed. -/
theorem c4_all_attempted_fails_iff_throw_witness :
    (threadedDownloads c4bNet c4bSt).launched.length = 2
    ∧ (threadedDownloads c4bNet c4bSt).threw = true := by
  have h := c4_all_attempted_fails_iff_throw c4bNet c4bSt ["downloads", "Y"]
    rfl (by decide)
  exact ⟨by rw [h.1]; rfl, h.2.mpr (by decide)⟩

def c1Tree : FetchRes :=
  .okFolder false "C"
    (.folder "S" (.okFolder false "sub" (.file "a.txt" "https://f/a" .nil)) .nil)

def c1Net : String → NetResult := fun _ => .throwErr

/-- Evaluation of the code at the failing input of C1: a root folder
`C` (name equal to its id) containing a subfolder `sub` with one file,
every fetch an ok envelope and no password gate, starting with the
process at the download root (the most favourable working directory).
The claim (and the spec) expect exactly one manifest entry with key 1;
the code instead creates `sub` directly under the download root
(`createDir` joins `rootDir`, not the traversal path), so the relative
`process.chdir('sub')` from `/downloads/C` hits ENOENT and the resolve
throws with an empty manifest. -/
theorem c1_failing_input_eval :
    (download c1Net c1Tree "https://gofile.io/d/C" (initSt rootDir)).2 = true
    ∧ (download c1Net c1Tree "https://gofile.io/d/C" (initSt rootDir)).1.filesInfo = []
    ∧ (download c1Net c1Tree "https://gofile.io/d/C" (initSt rootDir)).1.idx = 0
    ∧ Ev.parseErr ∈ (download c1Net c1Tree "https://gofile.io/d/C" (initSt rootDir)).1.events
    ∧ ["downloads", "sub"] ∈ (download c1Net c1Tree "https://gofile.io/d/C" (initSt rootDir)).1.dirs
    ∧ ["downloads", "C", "sub"] ∉ (download c1Net c1Tree "https://gofile.io/d/C" (initSt rootDir)).1.dirs := by
  decide

def c2Tree : FetchRes := .okFolder true "C" .nil

def c2Net : String → NetResult := fun _ => .throwErr

/-- Counterexample for C2: resolving a password-gated root produces zero
manifest entries and a password report — but the run's root local
directory IS created: `download` calls `createDir(contentId)` before the
root fetch, and the directory is left in place after the abort. -/
theorem c2_counterexample :
    rootDir ++ ["C"]
        ∈ (download c2Net c2Tree "https://gofile.io/d/C" (initSt ["app"])).1.dirs
    ∧ rootDir ++ ["C"] ∉ (initSt ["app"]).dirs
    ∧ (download c2Net c2Tree "https://gofile.io/d/C" (initSt ["app"])).1.filesInfo = []
    ∧ Ev.pwRequired
        ∈ (download c2Net c2Tree "https://gofile.io/d/C" (initSt ["app"])).1.events := by
  decide

/-- C2 (amended): resolving a password-gated root without a satisfying
password reports the password requirement, produces zero manifest
entries, issues no transfer request, and returns without error — but
the run's root local directory, created unconditionally before the root
fetch, exists afterwards. -/
theorem c2_password_gate_behavior (net : String → NetResult)
    (t : FetchRes) (url : String) (s0 : St) (cid : String)
    (hg : pwGated t)
    (hurl : urlSecondLast (splitSlash url) = some "d")
    (hcid : (splitSlash url).getLastD "" = cid)
    (hfresh : s0.contentDir = none) :
    (download net t url s0).2 = false
    ∧ (download net t url s0).1.filesInfo = []
    ∧ (download net t url s0).1.idx = 0
    ∧ rootDir ++ [cid] ∈ (download net t url s0).1.dirs
    ∧ Ev.pwRequired ∈ (download net t url s0).1.events
    ∧ (download net t url s0).1.engineRequests = s0.engineRequests := by
  subst hcid
  have hp : ∀ s : St, parseLinks t ((splitSlash url).getLastD "") s
      = (addEv (incMeta s) .pwRequired, false) := by
    intro s
    cases t with
    | okFile pw n l =>
      rw [show pw = true from hg]
      unfold parseLinks
      simp
    | okFolder pw n cs =>
      rw [show pw = true from hg]
      unfold parseLinks
      simp
    | badStatus => exact absurd hg (by simp [pwGated])
    | thrownFetch => exact absurd hg (by simp [pwGated])
  simp only [download]
  rw [if_neg (by simp [hurl])]
  rw [hp]
  dsimp only
  have hcd : (addEv (incMeta (createDir s0 ((splitSlash url).getLastD "")))
      Ev.pwRequired).contentDir = none := by
    simp [addEv, incMeta, createDir, hfresh]
  rw [hcd]
  dsimp only
  refine ⟨rfl, rfl, rfl, ?_, ?_, ?_⟩
  · simp only [reset, addEv, incMeta, createDir]
    exact mem_mkdirp_self _ _
  · simp [reset, addEv, incMeta, createDir]
  · simp [reset, addEv, incMeta, createDir]

/-- Witness for the amended C2 at the password-gated root folder. -/
theorem c2_password_gate_behavior_witness :
    (download c2Net c2Tree "https://gofile.io/d/C" (initSt ["app"])).2 = false
    ∧ (download c2Net c2Tree "https://gofile.io/d/C" (initSt ["app"])).1.idx = 0
    ∧ (download c2Net c2Tree "https://gofile.io/d/C" (initSt ["app"])).1.engineRequests
        = (initSt ["app"]).engineRequests := by
  have h := c2_password_gate_behavior c2Net c2Tree "https://gofile.io/d/C"
    (initSt ["app"]) "C" rfl (by decide) (by decide) rfl
  exact ⟨h.1, h.2.2.1, h.2.2.2.2.2⟩

def c8Tree : FetchRes :=
  .okFolder false "C" (.folder "S" .badStatus (.file "a.txt" "L8" .nil))

def c8Net : String → NetResult := fun _ => .ok (some 10) 10 false

/-- Counterexample for C8: a nested non-ok envelope (`badStatus` for
subfolder `S`) does not abort the resolve — the sibling file is still
collected, the run finishes without error, one transfer GET is issued
and the file lands on disk.  The partial manifest IS used for
downloading. -/
theorem c8_counterexample :
    (download c8Net c8Tree "https://gofile.io/d/C" (initSt rootDir)).2 = false
    ∧ Ev.failStatus
        ∈ (download c8Net c8Tree "https://gofile.io/d/C" (initSt rootDir)).1.events
    ∧ (download c8Net c8Tree "https://gofile.io/d/C" (initSt rootDir)).1.engineRequests = 1
    ∧ lookupSize (download c8Net c8Tree "https://gofile.io/d/C" (initSt rootDir)).1.files
        ["downloads", "C", "a.txt"] = some 10 := by
  decide

/-- C8 (amended): a thrown fetch error (network failure / malformed
JSON) aborts the entire resolve — the remaining siblings are never
visited and, when the resolve phase throws, `download` rethrows at once,
so the transfer phase is never reached.  A non-ok envelope, by contrast,
only logs and prunes that one child, and resolution continues with its
siblings. -/
theorem c8_thrown_aborts_nonok_prunes :
    (∀ (id : String) (rest : Children) (s : St),
        goChildren (.folder id .thrownFetch rest) s
          = (addEv (incMeta s) .parseErr, true))
    ∧ (∀ (id : String) (rest : Children) (s : St),
        goChildren (.folder id .badStatus rest) s
          = goChildren rest (addEv (incMeta s) .failStatus))
    ∧ (∀ (net : String → NetResult) (t : FetchRes) (url : String) (s0 : St),
        urlSecondLast (splitSlash url) = some "d" →
        (parseLinks t ((splitSlash url).getLastD "")
            (createDir s0 ((splitSlash url).getLastD ""))).2 = true →
        download net t url s0
          = (addEv (parseLinks t ((splitSlash url).getLastD "")
              (createDir s0 ((splitSlash url).getLastD ""))).1 .runErr, true)) := by
  refine ⟨fun id rest s => rfl, fun id rest s => rfl, ?_⟩
  intro net t url s0 hurl hthrew
  simp only [download]
  rw [if_neg (by simp [hurl])]
  rcases hpp : parseLinks t ((splitSlash url).getLastD "")
      (createDir s0 ((splitSlash url).getLastD "")) with ⟨s1, b⟩
  cases b with
  | true => rfl
  | false =>
    rw [hpp] at hthrew
    simp at hthrew

/-- Witness for the amended C8: a root whose fetch throws makes the
whole run rethrow. -/
theorem c8_thrown_aborts_nonok_prunes_witness :
    (download c8Net .thrownFetch "https://gofile.io/d/C" (initSt ["app"])).2 = true := by
  have h := c8_thrown_aborts_nonok_prunes.2.2 c8Net .thrownFetch
    "https://gofile.io/d/C" (initSt ["app"]) (by decide) (by decide)
  rw [h]

def c9Tree : FetchRes := .okFolder false "C" (.file "a" "L9" .nil)

def c9Net : String → NetResult := fun _ => .throwErr

/-- Counterexample for C9: a run that resolves one file and then fails
in the transfer phase (the transfer GET throws) ends with the error
rethrown and the instance state NOT discarded: the manifest still holds
its entry and the content-directory reference is still set —
`resetClassProperties` is not called on the error path. -/
theorem c9_counterexample :
    (download c9Net c9Tree "https://gofile.io/d/C" (initSt rootDir)).2 = true
    ∧ (download c9Net c9Tree "https://gofile.io/d/C" (initSt rootDir)).1.filesInfo ≠ []
    ∧ (download c9Net c9Tree "https://gofile.io/d/C" (initSt rootDir)).1.contentDir ≠ none := by
  decide

/-- C9 (amended): a run that returns normally — whether it downloaded,
found no content directory, or found an empty directory — always ends
with the per-run state discarded (empty manifest, zero sequence counter,
cleared content-directory reference); but a run that ends by throwing
skips `resetClassProperties`, so the state survives. -/
theorem c9_reset_only_on_normal_return (net : String → NetResult)
    (t : FetchRes) (url : String) (s0 : St)
    (h1 : s0.contentDir = none) (h2 : s0.idx = 0) (h3 : s0.filesInfo = [])
    (hok : (download net t url s0).2 = false) :
    (download net t url s0).1.contentDir = none
    ∧ (download net t url s0).1.idx = 0
    ∧ (download net t url s0).1.filesInfo = [] := by
  by_cases hu : urlSecondLast (splitSlash url) ≠ some "d"
  · simp only [download]
    rw [if_pos hu]
    exact ⟨by simpa [addEv] using h1, by simpa [addEv] using h2,
      by simpa [addEv] using h3⟩
  · simp only [download] at hok ⊢
    rw [if_neg hu] at hok ⊢
    rcases hpp : parseLinks t ((splitSlash url).getLastD "")
        (createDir s0 ((splitSlash url).getLastD "")) with ⟨s1, b⟩
    cases b with
    | true =>
      rw [hpp] at hok
      simp at hok
    | false =>
      rw [hpp] at hok
      dsimp only at hok ⊢
      rcases hcd : s1.contentDir with _ | cd
      · exact ⟨rfl, rfl, rfl⟩
      · rw [hcd] at hok
        dsimp only at hok
        dsimp only
        by_cases hemp : childCount s1 cd = 0 ∧ s1.filesInfo = []
        · rw [if_pos hemp]
          exact ⟨rfl, rfl, rfl⟩
        · rw [if_neg hemp] at hok ⊢
          by_cases ht : (threadedDownloads net s1).threw = true
          · rw [if_pos ht] at hok
            simp at hok
          · rw [if_neg ht]
            exact ⟨rfl, rfl, rfl⟩

/-- Witness for the amended C9: a root whose fetch returns a non-ok
envelope yields a normally-returning no-op run, and the state ends
discarded. -/
theorem c9_reset_only_on_normal_return_witness :
    (download c9Net .badStatus "https://gofile.io/d/C" (initSt ["app"])).1.contentDir = none
    ∧ (download c9Net .badStatus "https://gofile.io/d/C" (initSt ["app"])).1.idx = 0
    ∧ (download c9Net .badStatus "https://gofile.io/d/C" (initSt ["app"])).1.filesInfo = [] := by
  exact c9_reset_only_on_normal_return c9Net .badStatus "https://gofile.io/d/C"
    (initSt ["app"]) rfl rfl rfl (by decide)

def c10Tree : FetchRes := .badStatus

def c10Net : String → NetResult := fun _ => .throwErr

/-- C10: submitting a URL whose second-to-last `/`-separated segment is
not the literal `d` makes `download` return without raising, having
issued no metadata request, created no directory, and appended no
manifest entry — only the "url probably doesn't have an id" line is
logged — and the endpoint still answers 200 "Download started". -/
theorem c10_bad_url_silent_noop (net : String → NetResult)
    (t : FetchRes) (url : String) (s0 : St)
    (h : urlSecondLast (splitSlash url) ≠ some "d") :
    download net t url s0 = (addEv s0 .badUrlMsg, false)
    ∧ (download net t url s0).1.filesInfo = s0.filesInfo
    ∧ (download net t url s0).1.dirs = s0.dirs
    ∧ (download net t url s0).1.metaFetches = s0.metaFetches
    ∧ (download net t url s0).1.engineRequests = s0.engineRequests
    ∧ (startsWithHttp (jsTrim url) = true →
        postDownload url = (200, "Download started")) := by
  have hd : download net t url s0 = (addEv s0 .badUrlMsg, false) := by
    simp only [download]
    rw [if_pos h]
  refine ⟨hd, ?_, ?_, ?_, ?_, ?_⟩
  · rw [hd]; rfl
  · rw [hd]; rfl
  · rw [hd]; rfl
  · rw [hd]; rfl
  · intro hh
    unfold postDownload
    rw [if_pos hh]

/-- Witness for C10 at `https://gofile.io/x/ABC` (second-to-last segment
`x`). -/
theorem c10_bad_url_silent_noop_witness :
    download c10Net c10Tree "https://gofile.io/x/ABC" (initSt ["app"])
      = (addEv (initSt ["app"]) .badUrlMsg, false)
    ∧ postDownload "https://gofile.io/x/ABC" = (200, "Download started") := by
  have h := c10_bad_url_silent_noop c10Net c10Tree "https://gofile.io/x/ABC"
    (initSt ["app"]) (by decide)
  exact ⟨h.1, h.2.2.2.2.2 (by decide)⟩

end GofileWebui
